import Mathlib

/-!
Shallow embedding of the fetch-and-cache hooks of `brian-tgle/fetch-app`
(`src/hooks/useFetchWithObject.ts`: `useFetchWithObject` with the module-level
volatile cache from `src/App.tsx`, and `useFetchWithIndexedDb` with the
localForage store from `src/hooks/useDb.ts`), together with theorems checking
the specification's claims about them.

Payloads are what `response.json()` produces, so they are modelled as JSON
values; `Error` payloads are modelled by their message string.  JavaScript
`undefined`-able fields are modelled with `Option`.  The hooks' asynchronous
operations are modelled as machines whose steps are the synchronous segments
of the code between `await` suspension points; the values delivered at each
suspension point (transport outcome, store read/write result) are step inputs.
-/

/-- JSON values, the type of `await response.json()` results and of cache
entries. -/
inductive Json where
  | jnull : Json
  | jbool (b : Bool) : Json
  | jnum (n : Int) : Json
  | jstr (s : String) : Json
  | jarr (elems : List Json) : Json
  | jobj (fields : List (String × Json)) : Json

/-- JavaScript truthiness of a JSON value: `null`, `false`, `0` and `""` are
falsy; every array and object is truthy regardless of contents. -/
def Json.truthy : Json → Bool
  | .jnull => false
  | .jbool b => b
  | .jnum n => n != 0
  | .jstr s => s != ""
  | .jarr _ => true
  | .jobj _ => true

/-- The reducer state `State<T>` of both hooks: `data?: T`, `error?: Error`,
`isLoading?: boolean`.  An absent (`undefined`) field is `none`. -/
structure FState where
  data : Option Json
  error : Option String
  isLoading : Option Bool

/-- The `FAction<T>` union dispatched to either reducer. -/
inductive FAction where
  | loading : FAction
  | fetched (payload : Json) : FAction
  | error (payload : String) : FAction

/-- `initialState` of `useFetchWithObject` (lines 23-26): `error` and `data`
undefined, `isLoading` not set. -/
def volatileInitialState : FState :=
  { data := none, error := none, isLoading := none }

/-- `fetchReducer` of `useFetchWithObject` (lines 29-40).  The `default`
branch of the `switch` is unreachable: `FAction` has exactly the three listed
variants. -/
def fetchReducer (state : FState) (action : FAction) : FState :=
  match action with
  | .loading => { volatileInitialState with isLoading := some true }
  | .fetched p => { volatileInitialState with data := some p, isLoading := some false }
  | .error e => { volatileInitialState with error := some e, isLoading := some false }

/-- `initialState` of `useFetchWithIndexedDb` (lines 127-131): `error` and
`data` undefined and `isLoading: false`. -/
def durableInitialState : FState :=
  { data := none, error := none, isLoading := some false }

/-- `fetchReducer` of `useFetchWithIndexedDb` (lines 134-145).  Unlike the
volatile variant, `loading` returns a plain copy of `initialState` and
`fetched`/`error` spread `initialState` without touching `isLoading`. -/
def durableFetchReducer (state : FState) (action : FAction) : FState :=
  match action with
  | .loading => durableInitialState
  | .fetched p => { durableInitialState with data := some p }
  | .error e => { durableInitialState with error := some e }

/-- A cache / store: the module-level `cache` object of `src/App.tsx` or the
localForage key-value store, as a partial map from URL to stored value. -/
def Cache : Type := String → Option Json

/-- `cache[url] = v` / a resolved `setItem(url, v)`: unconditional overwrite. -/
def Cache.set (c : Cache) (url : String) (v : Json) : Cache :=
  fun k => if k = url then some v else c k

/-- The hit check `if (cache[url])` (line 54) / `if (cacheData)` (line 154):
an absent key reads as `undefined` (falsy), a present value hits only if it
is truthy.  Returns the value delivered on a hit. -/
def Cache.hitValue (c : Cache) (url : String) : Option Json :=
  match c url with
  | some v => if v.truthy then some v else none
  | none => none

/-- Observable events of one hook instance, in chronological order:
dispatches to the reducer, transport (`fetch`) invocations, cache/store reads
and completed cache/store writes. -/
inductive Event where
  | dispatched (a : FAction) : Event
  | transportCalled (url : String) : Event
  | cacheRead (url : String) : Event
  | cacheWrite (url : String) (v : Json) : Event

/-- Outcome of one `fetch(url, options)` (plus `response.json()`) call:
a deserialized payload, a response with `ok` false and the given
`statusText`, or a network/deserialization failure whose thrown `Error`
carries the given message. -/
inductive FetchOutcome where
  | success (payload : Json) : FetchOutcome
  | notOk (statusText : String) : FetchOutcome
  | failure (msg : String) : FetchOutcome

/-! ### The volatile-cache hook `useFetchWithObject` -/

/-- One mounted `useFetchWithObject` instance: its reducer state, the shared
mutable `cancelRequest.current` ref, the module-level `cache` object, and the
chronological log of observable events. -/
structure VHook where
  fstate : FState
  flag : Bool
  cache : Cache
  events : List Event

/-- A fresh instance: `useRef<boolean>(false)` (line 21) and
`useReducer(fetchReducer, initialState)` (line 42), over the current contents
of the module-level `cache`. -/
def VHook.init (c : Cache) : VHook :=
  { fstate := volatileInitialState, flag := false, cache := c, events := [] }

/-- `dispatch(action)`: the reducer consumes the action and the dispatch is
logged. -/
def VHook.dispatch (h : VHook) (a : FAction) : VHook :=
  { h with fstate := fetchReducer h.fstate a
           events := h.events ++ [Event.dispatched a] }

/-- The effect cleanup function (lines 81-83): `cancelRequest.current = true`.
Runs when the component unmounts or before the effect re-runs for a new
`url`. -/
def VHook.cleanup (h : VHook) : VHook := { h with flag := true }

/-- The effect body (lines 44-77) up to the first suspension point: if the
url is empty/absent (`if (!url) return`, line 46) nothing happens; otherwise
`cancelRequest.current = false` (line 48), then `fetchData` runs
synchronously: `dispatch loading` (line 51), the `cache[url]` hit check
(lines 54-57) dispatching `fetched` on a hit, and otherwise the `fetch`
invocation (line 60), at which the operation suspends. -/
def VHook.effectStart (h : VHook) (url : String) : VHook :=
  if url = "" then h
  else
    let h := { h with flag := false }
    let h := h.dispatch FAction.loading
    let h := { h with events := h.events ++ [Event.cacheRead url] }
    match h.cache.hitValue url with
    | some v => h.dispatch (FAction.fetched v)
    | none => { h with events := h.events ++ [Event.transportCalled url] }

/-- Resumption after `await fetch(url, options)` / `await response.json()`
(lines 60-74): on success the payload is written to `cache[url]` (line 66)
and then, unless `cancelRequest.current` is set (line 67), `fetched` is
dispatched; a non-ok response throws `Error(response.statusText)` (line 62)
and any thrown/rejected error reaches the catch block, which dispatches
`error` unless `cancelRequest.current` is set (lines 70-74). -/
def VHook.resolveTransport (h : VHook) (url : String) (outcome : FetchOutcome) : VHook :=
  match outcome with
  | .success p =>
      let h := { h with cache := h.cache.set url p
                        events := h.events ++ [Event.cacheWrite url p] }
      if h.flag then h else h.dispatch (FAction.fetched p)
  | .notOk st =>
      if h.flag then h else h.dispatch (FAction.error st)
  | .failure m =>
      if h.flag then h else h.dispatch (FAction.error m)

/-! ### The durable-cache hook `useFetchWithIndexedDb` -/

/-- One mounted `useFetchWithIndexedDb` instance: its reducer state, the
shared mutable `cancelRequest.current` ref, the localForage-backed store, and
the chronological log of observable events. -/
structure DHook where
  fstate : FState
  flag : Bool
  store : Cache
  events : List Event

/-- A fresh instance: `useRef<boolean>(false)` (line 125) and
`useReducer(fetchReducer, initialState)` (line 147), over the current
contents of the durable store. -/
def DHook.init (s : Cache) : DHook :=
  { fstate := durableInitialState, flag := false, store := s, events := [] }

/-- `dispatch(action)`: the reducer consumes the action and the dispatch is
logged. -/
def DHook.dispatch (h : DHook) (a : FAction) : DHook :=
  { h with fstate := durableFetchReducer h.fstate a
           events := h.events ++ [Event.dispatched a] }

/-- The effect cleanup function (lines 187-189): `cancelRequest.current =
true`.  Runs when the component unmounts or before the effect re-runs. -/
def DHook.cleanup (h : DHook) : DHook := { h with flag := true }

/-- The effect body (lines 178-184) and `fetchData` (lines 149-153) up to the
first suspension point: only if the url is non-empty, `cancelRequest.current =
false` (line 181), then `fetchData` dispatches `loading` (line 150) and calls
`cacheDb.getItem(url)` (line 153), at which the operation suspends. -/
def DHook.effectStart (h : DHook) (url : String) : DHook :=
  if url = "" then h
  else
    let h := { h with flag := false }
    let h := h.dispatch FAction.loading
    { h with events := h.events ++ [Event.cacheRead url] }

/-- Resumption after `await cacheDb.getItem(url)` (lines 153-160).  `getFail`
carries the rejection reason when the store read fails: the `await` is
outside the try block, so the rejection is uncaught and `fetchData` aborts
with no further observable effect.  On a resolved read, `if (cacheData)`
(line 154) dispatches `fetched` with the stored value when it is truthy —
with no cancellation check — and otherwise (key absent, i.e. localForage
resolves `null`, or stored value falsy) falls through to `fetch(url,
options)` (line 160), at which the operation suspends again. -/
def DHook.resolveGet (h : DHook) (url : String) (getFail : Option String) : DHook :=
  match getFail with
  | some _ => h
  | none =>
    match h.store.hitValue url with
    | some v => h.dispatch (FAction.fetched v)
    | none => { h with events := h.events ++ [Event.transportCalled url] }

/-- Resumption after `await fetch(url, options)` / `await response.json()`
(lines 160-165): a non-ok response throws `Error(response.statusText)` (line
162) and any thrown/rejected error reaches the catch block, which dispatches
`error` unless `cancelRequest.current` is set (lines 170-174).  On success
the operation calls `cacheDb.setItem(url, data)` (line 166) and suspends
there. -/
def DHook.resolveFetch (h : DHook) (url : String) (outcome : FetchOutcome) : DHook :=
  match outcome with
  | .success _ => h
  | .notOk st =>
      if h.flag then h else h.dispatch (FAction.error st)
  | .failure m =>
      if h.flag then h else h.dispatch (FAction.error m)

/-- Resumption after `await cacheDb.setItem(url, p)` (lines 166-174).
`setFail` carries the rejection reason when the store write fails: the
rejection is raised inside the try block, so control reaches the catch block,
which dispatches `error` unless `cancelRequest.current` is set.  When the
write resolves, the store now holds `p` under `url` and, unless
`cancelRequest.current` is set (line 167), `fetched` is dispatched (line
169). -/
def DHook.resolveSet (h : DHook) (url : String) (p : Json) (setFail : Option String) : DHook :=
  match setFail with
  | some m =>
      if h.flag then h else h.dispatch (FAction.error m)
  | none =>
      let h := { h with store := h.store.set url p
                        events := h.events ++ [Event.cacheWrite url p] }
      if h.flag then h else h.dispatch (FAction.fetched p)

/-! ### Claims -/

/-- C7: in every reachable state of either hook's reducer at most one of
`data`/`error` is populated: the `loading` action clears both from any prior
state, `fetched` sets `data` and leaves `error` undefined, `error` sets
`error` and leaves `data` undefined, and both initial states populate
neither. -/
theorem reducer_keeps_data_error_exclusive :
    (∀ s a, (fetchReducer s a).data = none ∨ (fetchReducer s a).error = none) ∧
    (∀ s, (fetchReducer s .loading).data = none ∧ (fetchReducer s .loading).error = none) ∧
    (∀ s p, (fetchReducer s (.fetched p)).data = some p ∧
      (fetchReducer s (.fetched p)).error = none) ∧
    (∀ s e, (fetchReducer s (.error e)).error = some e ∧
      (fetchReducer s (.error e)).data = none) ∧
    (volatileInitialState.data = none ∧ volatileInitialState.error = none) ∧
    (∀ s a, (durableFetchReducer s a).data = none ∨ (durableFetchReducer s a).error = none) ∧
    (∀ s, (durableFetchReducer s .loading).data = none ∧
      (durableFetchReducer s .loading).error = none) ∧
    (∀ s p, (durableFetchReducer s (.fetched p)).data = some p ∧
      (durableFetchReducer s (.fetched p)).error = none) ∧
    (∀ s e, (durableFetchReducer s (.error e)).error = some e ∧
      (durableFetchReducer s (.error e)).data = none) ∧
    (durableInitialState.data = none ∧ durableInitialState.error = none) := by
  refine ⟨fun s a => ?_, fun s => ⟨rfl, rfl⟩, fun s p => ⟨rfl, rfl⟩, fun s e => ⟨rfl, rfl⟩,
    ⟨rfl, rfl⟩, fun s a => ?_, fun s => ⟨rfl, rfl⟩, fun s p => ⟨rfl, rfl⟩,
    fun s e => ⟨rfl, rfl⟩, ⟨rfl, rfl⟩⟩
  · cases a
    · exact Or.inl rfl
    · exact Or.inr rfl
    · exact Or.inl rfl
  · cases a
    · exact Or.inl rfl
    · exact Or.inr rfl
    · exact Or.inl rfl

/-- C10: in the durable (IndexedDB) hook variant `isLoading` is `false` in
every reachable state: the initial state sets it `false` and every reducer
action (including `loading`) yields a state with `isLoading = false`, while
the volatile variant's `loading` action sets `isLoading` to `true`. -/
theorem durable_isLoading_never_true :
    durableInitialState.isLoading = some false ∧
    (∀ s a, (durableFetchReducer s a).isLoading = some false) ∧
    (∀ s, (fetchReducer s .loading).isLoading = some true) := by
  refine ⟨rfl, fun s a => ?_, fun s => rfl⟩
  cases a <;> rfl

/-- C8: activating either hook with an empty/absent identifier is a no-op —
the machine is left exactly as it was (so a fresh controller stays in the
initial idle state), with no dispatch, no Transport invocation and no cache
read or write. -/
theorem empty_url_is_noop :
    (∀ h : VHook, h.effectStart "" = h) ∧
    (∀ h : DHook, h.effectStart "" = h) ∧
    (∀ c, ((VHook.init c).effectStart "").fstate = volatileInitialState ∧
      ((VHook.init c).effectStart "").events = []) ∧
    (∀ s, ((DHook.init s).effectStart "").fstate = durableInitialState ∧
      ((DHook.init s).effectStart "").events = []) := by
  refine ⟨fun h => by simp [VHook.effectStart], fun h => by simp [DHook.effectStart],
    fun c => ⟨rfl, rfl⟩, fun s => ⟨rfl, rfl⟩⟩

/-- C6: a non-ok response status produces exactly the same step as a
transport-level exception with the same message; in both hooks it never
touches the cache/store, and (when the operation is not cancelled) it lands
in the `error` state carrying the response's status text. -/
theorem nonOk_status_like_exception :
    (∀ (h : VHook) (url st : String),
      h.resolveTransport url (.notOk st) = h.resolveTransport url (.failure st)) ∧
    (∀ (h : VHook) (url st : String),
      (h.resolveTransport url (.notOk st)).cache = h.cache) ∧
    (∀ (h : VHook) (url st : String), h.flag = false →
      (h.resolveTransport url (.notOk st)).fstate = fetchReducer h.fstate (.error st)) ∧
    (∀ (h : DHook) (url st : String),
      h.resolveFetch url (.notOk st) = h.resolveFetch url (.failure st)) ∧
    (∀ (h : DHook) (url st : String),
      (h.resolveFetch url (.notOk st)).store = h.store) ∧
    (∀ (h : DHook) (url st : String), h.flag = false →
      (h.resolveFetch url (.notOk st)).fstate = durableFetchReducer h.fstate (.error st)) := by
  refine ⟨fun h url st => rfl, fun h url st => ?_, fun h url st hf => ?_,
    fun h url st => rfl, fun h url st => ?_, fun h url st hf => ?_⟩
  · by_cases hf : h.flag <;> simp [VHook.resolveTransport, VHook.dispatch, hf]
  · simp [VHook.resolveTransport, VHook.dispatch, hf]
  · by_cases hf : h.flag <;> simp [DHook.resolveFetch, DHook.dispatch, hf]
  · simp [DHook.resolveFetch, DHook.dispatch, hf]

/-- Witness for C6 at a fresh volatile instance over an empty cache and a
"Not Found" status. -/
theorem nonOk_status_like_exception_witness :
    ((VHook.init (fun _ => none)).resolveTransport "u" (.notOk "Not Found")).fstate
      = fetchReducer volatileInitialState (.error "Not Found") :=
  nonOk_status_like_exception.2.2.1 (VHook.init (fun _ => none)) "u" "Not Found" rfl

/-- C5: on transport success the payload is written to the cache/store and
the write completes strictly before the `fetched` dispatch (seen in the
event order), so at the moment the consumer is informed of `fetched` a cache
lookup for the identifier already returns the payload. -/
theorem cache_write_precedes_fetched_report :
    (∀ (h : VHook) (url : String) (p : Json),
      (h.resolveTransport url (.success p)).cache url = some p) ∧
    (∀ (h : VHook) (url : String) (p : Json), h.flag = false →
      (h.resolveTransport url (.success p)).events
        = h.events ++ [Event.cacheWrite url p, Event.dispatched (.fetched p)] ∧
      (h.resolveTransport url (.success p)).fstate = fetchReducer h.fstate (.fetched p)) ∧
    (∀ (h : DHook) (url : String) (p : Json),
      ((h.resolveFetch url (.success p)).resolveSet url p none).store url = some p) ∧
    (∀ (h : DHook) (url : String) (p : Json), h.flag = false →
      ((h.resolveFetch url (.success p)).resolveSet url p none).events
        = h.events ++ [Event.cacheWrite url p, Event.dispatched (.fetched p)] ∧
      ((h.resolveFetch url (.success p)).resolveSet url p none).fstate
        = durableFetchReducer h.fstate (.fetched p)) := by
  refine ⟨fun h url p => ?_, fun h url p hf => ?_, fun h url p => ?_, fun h url p hf => ?_⟩
  · by_cases hf : h.flag <;>
      simp [VHook.resolveTransport, VHook.dispatch, Cache.set, hf]
  · simp [VHook.resolveTransport, VHook.dispatch, hf]
  · by_cases hf : h.flag <;>
      simp [DHook.resolveFetch, DHook.resolveSet, DHook.dispatch, Cache.set, hf]
  · simp [DHook.resolveFetch, DHook.resolveSet, DHook.dispatch, hf]

/-- Witness for C5 at fresh instances over empty stores, url "u" and the
payload `[]`. -/
theorem cache_write_precedes_fetched_report_witness :
    ((VHook.init (fun _ => none)).resolveTransport "u" (.success (Json.jarr []))).events
      = (VHook.init (fun _ => none)).events
        ++ [Event.cacheWrite "u" (Json.jarr []),
            Event.dispatched (.fetched (Json.jarr []))] ∧
    ((VHook.init (fun _ => none)).resolveTransport "u" (.success (Json.jarr []))).fstate
      = fetchReducer volatileInitialState (.fetched (Json.jarr [])) :=
  cache_write_precedes_fetched_report.2.1 (VHook.init (fun _ => none)) "u" (Json.jarr []) rfl

/-- C9: when the cancellation flag is set at the post-transport check, a
successful transport outcome still writes the payload into the cache/store
(so a later lookup observes it); only the state report is suppressed — the
reducer state is unchanged and the only new event is the cache write. -/
theorem cancelled_op_still_writes_cache :
    (∀ (h : VHook) (url : String) (p : Json), h.flag = true →
      (h.resolveTransport url (.success p)).cache url = some p ∧
      (h.resolveTransport url (.success p)).fstate = h.fstate ∧
      (h.resolveTransport url (.success p)).events = h.events ++ [Event.cacheWrite url p]) ∧
    (∀ (h : DHook) (url : String) (p : Json), h.flag = true →
      ((h.resolveFetch url (.success p)).resolveSet url p none).store url = some p ∧
      ((h.resolveFetch url (.success p)).resolveSet url p none).fstate = h.fstate ∧
      ((h.resolveFetch url (.success p)).resolveSet url p none).events
        = h.events ++ [Event.cacheWrite url p]) := by
  refine ⟨fun h url p hf => ?_, fun h url p hf => ?_⟩
  · simp [VHook.resolveTransport, VHook.dispatch, Cache.set, hf]
  · simp [DHook.resolveFetch, DHook.resolveSet, DHook.dispatch, Cache.set, hf]

/-- Witness for C9 at a cancelled fresh volatile instance. -/
theorem cancelled_op_still_writes_cache_witness :
    (((VHook.init (fun _ => none)).cleanup.resolveTransport "u"
        (.success (Json.jnum 1))).cache "u" = some (Json.jnum 1)) ∧
    ((VHook.init (fun _ => none)).cleanup.resolveTransport "u"
        (.success (Json.jnum 1))).fstate = (VHook.init (fun _ => none)).cleanup.fstate ∧
    ((VHook.init (fun _ => none)).cleanup.resolveTransport "u"
        (.success (Json.jnum 1))).events
      = (VHook.init (fun _ => none)).cleanup.events ++ [Event.cacheWrite "u" (Json.jnum 1)] :=
  (cancelled_op_still_writes_cache.1 (VHook.init (fun _ => none)).cleanup "u" (Json.jnum 1) rfl)

/-- A cache holding the falsy value `false` under key "u" and nothing else. -/
def cacheWithFalsyEntry : Cache :=
  fun k => if k = "u" then some (Json.jbool false) else none

/-- Counterexample to C4 as stated: the cache holds a value (`false`) for
"u", yet activating the volatile hook with "u" invokes Transport (the hit
check is a truthiness test, so a falsy stored value reads as a miss) and the
state after activation is the loading state, not `fetched(false)`. -/
theorem falsy_cache_entry_refetches_cex :
    cacheWithFalsyEntry "u" = some (Json.jbool false) ∧
    ((VHook.init cacheWithFalsyEntry).effectStart "u").events
      = [Event.dispatched .loading, Event.cacheRead "u", Event.transportCalled "u"] ∧
    Event.transportCalled "u" ∈ ((VHook.init cacheWithFalsyEntry).effectStart "u").events ∧
    ((VHook.init cacheWithFalsyEntry).effectStart "u").fstate
      ≠ fetchReducer volatileInitialState (.fetched (Json.jbool false)) := by
  refine ⟨rfl, rfl, ?_, ?_⟩
  · show Event.transportCalled "u"
      ∈ [Event.dispatched .loading, Event.cacheRead "u", Event.transportCalled "u"]
    simp
  · show fetchReducer volatileInitialState .loading
      ≠ fetchReducer volatileInitialState (.fetched (Json.jbool false))
    simp [fetchReducer, volatileInitialState]

/-- C4 as amended: if the cache/store already holds a truthy value `v` for a
non-empty identifier, activating either hook reaches the `fetched` state
carrying exactly `v` and never invokes Transport (the events are exactly the
loading dispatch, the cache read and the fetched dispatch); a falsy stored
value is instead treated as a miss. -/
theorem truthy_cache_hit_skips_transport (c : Cache) (url : String) (v : Json)
    (hu : url ≠ "") (hv : c url = some v) (ht : v.truthy = true) :
    ((VHook.init c).effectStart url).fstate
      = fetchReducer (fetchReducer volatileInitialState .loading) (.fetched v) ∧
    ((VHook.init c).effectStart url).events
      = [Event.dispatched .loading, Event.cacheRead url, Event.dispatched (.fetched v)] ∧
    (((DHook.init c).effectStart url).resolveGet url none).fstate
      = durableFetchReducer (durableFetchReducer durableInitialState .loading) (.fetched v) ∧
    (((DHook.init c).effectStart url).resolveGet url none).events
      = [Event.dispatched .loading, Event.cacheRead url, Event.dispatched (.fetched v)] := by
  have hhit : Cache.hitValue c url = some v := by
    simp [Cache.hitValue, hv, ht]
  refine ⟨?_, ?_, ?_, ?_⟩ <;>
    simp [VHook.effectStart, DHook.effectStart, DHook.resolveGet, VHook.init, DHook.init,
      VHook.dispatch, DHook.dispatch, hu, hhit]

/-- Witness for C4 as amended: a cache holding the truthy value `[]` under
"B" produces a transport-free `fetched([])`. -/
theorem truthy_cache_hit_skips_transport_witness :
    (((VHook.init (fun k => if k = "B" then some (Json.jarr []) else none)).effectStart
        "B").fstate
      = fetchReducer (fetchReducer volatileInitialState .loading) (.fetched (Json.jarr []))) ∧
    ((VHook.init (fun k => if k = "B" then some (Json.jarr []) else none)).effectStart
        "B").events
      = [Event.dispatched .loading, Event.cacheRead "B",
         Event.dispatched (.fetched (Json.jarr []))] ∧
    ((((DHook.init (fun k => if k = "B" then some (Json.jarr []) else none)).effectStart
        "B").resolveGet "B" none).fstate
      = durableFetchReducer (durableFetchReducer durableInitialState .loading)
          (.fetched (Json.jarr []))) ∧
    (((DHook.init (fun k => if k = "B" then some (Json.jarr []) else none)).effectStart
        "B").resolveGet "B" none).events
      = [Event.dispatched .loading, Event.cacheRead "B",
         Event.dispatched (.fetched (Json.jarr []))] :=
  truthy_cache_hit_skips_transport (fun k => if k = "B" then some (Json.jarr []) else none)
    "B" (Json.jarr []) (by decide) rfl rfl

/-- The everywhere-empty cache/store. -/
def emptyStore : Cache := fun _ => none

/-- Counterexample to C2 as stated: when the durable store's `get` rejects,
Transport is never invoked (the events after the read are exactly the
loading dispatch and the store read — no `transportCalled`), so the
controller cannot reach `fetched`; it is left in the loading state with no
data. -/
theorem storeGetFailure_skips_transport_cex :
    (((DHook.init emptyStore).effectStart "u").resolveGet "u" (some "read failed")).events
      = [Event.dispatched .loading, Event.cacheRead "u"] ∧
    (((DHook.init emptyStore).effectStart "u").resolveGet "u" (some "read failed")).fstate
      = durableFetchReducer durableInitialState .loading ∧
    (((DHook.init emptyStore).effectStart "u").resolveGet "u" (some "read failed")).fstate.data
      = none := by
  exact ⟨rfl, rfl, rfl⟩

/-- C2 as amended: a rejection of the durable store's `get` is not treated as
a cache miss — the `await` sits outside the try block, so the rejection is
uncaught and the operation aborts as a whole: no Transport invocation, no
dispatch (in particular the failure is indeed never surfaced as `error`),
and the machine is left exactly as it was, stuck in the loading state. -/
theorem storeGetFailure_aborts_operation :
    ∀ (h : DHook) (url m : String), h.resolveGet url (some m) = h :=
  fun h url m => rfl

/-- Counterexample to C3 as stated: over an empty store, a successful
transport of payload `[1]` for "u" followed by a rejected `setItem` leaves
the consumer in the `error` state carrying the write-failure reason — not in
`fetched([1])`: the rejection is raised inside the try block and caught by
the same catch that handles transport failures. -/
theorem storeSetFailure_error_state_cex :
    (((((DHook.init emptyStore).effectStart "u").resolveGet "u" none).resolveFetch "u"
        (.success (Json.jarr [Json.jnum 1]))).resolveSet "u" (Json.jarr [Json.jnum 1])
        (some "write failed")).fstate
      = durableFetchReducer durableInitialState (.error "write failed") ∧
    (((((DHook.init emptyStore).effectStart "u").resolveGet "u" none).resolveFetch "u"
        (.success (Json.jarr [Json.jnum 1]))).resolveSet "u" (Json.jarr [Json.jnum 1])
        (some "write failed")).fstate.data = none ∧
    (((((DHook.init emptyStore).effectStart "u").resolveGet "u" none).resolveFetch "u"
        (.success (Json.jarr [Json.jnum 1]))).resolveSet "u" (Json.jarr [Json.jnum 1])
        (some "write failed")).fstate.error = some "write failed" := by
  exact ⟨rfl, rfl, rfl⟩

/-- C3 as amended: when Transport succeeds with payload `p` but the durable
store's `set` rejects, the fetched value is not delivered — unless the
operation is cancelled, the controller transitions to the `error` state
carrying the write-failure reason, and the store is left unchanged
(persistence of that entry is lost). -/
theorem storeSetFailure_surfaces_error (h : DHook) (url : String) (p : Json) (m : String)
    (hf : h.flag = false) :
    ((h.resolveFetch url (.success p)).resolveSet url p (some m)).fstate
      = durableFetchReducer h.fstate (.error m) ∧
    ((h.resolveFetch url (.success p)).resolveSet url p (some m)).store = h.store := by
  simp [DHook.resolveFetch, DHook.resolveSet, DHook.dispatch, hf]

/-- Witness for C3 as amended at a fresh durable instance over an empty
store. -/
theorem storeSetFailure_surfaces_error_witness :
    (((DHook.init emptyStore).resolveFetch "u" (.success Json.jnull)).resolveSet "u"
        Json.jnull (some "boom")).fstate
      = durableFetchReducer durableInitialState (.error "boom") ∧
    (((DHook.init emptyStore).resolveFetch "u" (.success Json.jnull)).resolveSet "u"
        Json.jnull (some "boom")).store = (DHook.init emptyStore).store :=
  storeSetFailure_surfaces_error (DHook.init emptyStore) "u" Json.jnull "boom" rfl

/-- A cache holding the truthy value `[]` under key "B" and nothing else. -/
def cacheWithEntryB : Cache := fun k => if k = "B" then some (Json.jarr []) else none

/-- The volatile hook after: activation with "A" (cache miss, transport
in flight), then the identifier changes to "B" — React runs the old effect's
cleanup (`cancelRequest.current = true`) and then the new effect, which
resets the flag to `false` and serves "B" from the cache. -/
def staleRunMid : VHook :=
  (((VHook.init cacheWithEntryB).effectStart "A").cleanup).effectStart "B"

/-- `staleRunMid` after the stale operation for "A" finally resolves with a
successful payload. -/
def staleRunFinal : VHook :=
  staleRunMid.resolveTransport "A" (.success (Json.jstr "stale"))

/-- Counterexample to C1 as stated: the stale operation's flag was set
(`true` after the cleanup) before it resolved, and the latest identifier
"B" had already reached `fetched([])` — yet when the stale "A" operation
resolves, its `fetched` dispatch is NOT suppressed (the new effect reset the
shared `cancelRequest` ref to `false`), and the final state is
`fetched("stale")`, not the latest identifier's outcome. -/
theorem stale_dispatch_after_url_change_cex :
    (((VHook.init cacheWithEntryB).effectStart "A").cleanup).flag = true ∧
    staleRunMid.fstate = fetchReducer volatileInitialState (.fetched (Json.jarr [])) ∧
    staleRunFinal.fstate = fetchReducer volatileInitialState (.fetched (Json.jstr "stale")) ∧
    staleRunFinal.events
      = staleRunMid.events ++ [Event.cacheWrite "A" (Json.jstr "stale"),
          Event.dispatched (.fetched (Json.jstr "stale"))] ∧
    fetchReducer volatileInitialState (.fetched (Json.jstr "stale"))
      ≠ fetchReducer volatileInitialState (.fetched (Json.jarr [])) := by
  refine ⟨rfl, rfl, rfl, rfl, ?_⟩
  simp [fetchReducer, volatileInitialState]

/-- C1 as amended: a stale operation's terminal report is suppressed only if
`cancelRequest.current` is still `true` when the post-transport check runs —
which disposal guarantees (cleanup sets it and nothing resets it), but an
identifier change does not: the effect for the new identifier resets the
shared flag to `false`, so a stale operation resolving after that may still
dispatch.  Whenever the flag is `true` at such a check, the reducer state is
unchanged by the resolution. -/
theorem stale_report_suppressed_only_while_flag_set :
    (∀ (h : VHook) (url : String) (o : FetchOutcome), h.flag = true →
      (h.resolveTransport url o).fstate = h.fstate) ∧
    (∀ (h : DHook) (url : String) (o : FetchOutcome), h.flag = true →
      (h.resolveFetch url o).fstate = h.fstate) ∧
    (∀ (h : DHook) (url : String) (p : Json) (f : Option String), h.flag = true →
      (h.resolveSet url p f).fstate = h.fstate) ∧
    (∀ h : VHook, h.cleanup.flag = true) ∧
    (∀ h : DHook, h.cleanup.flag = true) ∧
    (∀ (h : VHook) (url : String), url ≠ "" → (h.effectStart url).flag = false) ∧
    (∀ (h : DHook) (url : String), url ≠ "" → (h.effectStart url).flag = false) := by
  refine ⟨fun h url o hf => ?_, fun h url o hf => ?_, fun h url p f hf => ?_,
    fun h => rfl, fun h => rfl, fun h url hu => ?_, fun h url hu => ?_⟩
  · cases o <;> simp [VHook.resolveTransport, VHook.dispatch, hf]
  · cases o <;> simp [DHook.resolveFetch, DHook.dispatch, hf]
  · cases f <;> simp [DHook.resolveSet, DHook.dispatch, hf]
  · simp [VHook.effectStart, hu, VHook.dispatch]
    cases hv : Cache.hitValue h.cache url <;> simp [VHook.dispatch]
  · simp [DHook.effectStart, hu, DHook.dispatch]

/-- Witness for C1 as amended: an unmounted (disposed, never re-activated)
volatile instance ignores the late transport failure. -/
theorem stale_report_suppressed_only_while_flag_set_witness :
    (((VHook.init emptyStore).cleanup).resolveTransport "u" (.failure "late")).fstate
      = ((VHook.init emptyStore).cleanup).fstate :=
  stale_report_suppressed_only_while_flag_set.1 ((VHook.init emptyStore).cleanup) "u"
    (.failure "late") rfl
